import Mathlib

/-!
Verification of the triage resolver in `src/views.py` of the MediFriend
repository.

The resolver consists of three pure functions:
* `calculate_priority_fallback(data)` — heuristic priority from patient data,
* `validate_priority(priority)` — clamp an AI-provided priority to `[1,5]`,
* `calculate_appointment(priority, ai_date=None)` — appointment timestamp.

Shallow embedding conventions:
* A Python `datetime` is modelled as an integer number of minutes since the
  epoch `1970-01-01T00:00` (a day is 1440 minutes); `datetime.date()` is the
  floor of the minute count by 1440 (a calendar day index), and
  `datetime.strptime(s, "%Y-%m-%d")` is modelled by `parseDate`, which
  returns the day index of a valid `Y-M-D` string (1-4 digit year, 1-2 digit
  month and day, calendar-validated with leap years, as CPython's `strptime`
  regex does) and `none` on malformed or invalid input (a `ValueError` in
  Python).
* Python values that arrive through `float(...)` / `int(...)` coercions are
  modelled as `Option ℚ` / `Option ℤ`: `none` is a value whose coercion
  raises (`ValueError`/`TypeError`), `some v` a value that coerces to `v`.
* Strings are Lean `String`s; `str.lower()` is `Char.toLower` on the
  character list (the inputs of interest are ASCII), and the Python `in`
  operator on strings is the substring test `hasSub`.
* Exception flow is made explicit in the `...E` variants, which return
  `Except PyErr _`: every Python statement that can raise is a value of
  `Except`, and every `try/except` block is a `pyTry` with the handler set
  of the corresponding `except` clause.  The plain (total) functions are
  the ones the rest of the development reasons about; theorem `C9` proves
  the `...E` variants never escape with an error and agree with them.
-/

namespace MediFriend

/-- The Python exception classes that the resolver's code can raise. -/
inductive PyErr
  | valueError
  | indexError
  | typeError
deriving DecidableEq

/-- `int(c)` for a single character `c`: its digit value, or a
`ValueError`.  (Models CPython's `int` on one-character strings for the
ASCII inputs of interest.) -/
def charDigit (c : Char) : Option ℤ :=
  if c.isDigit then some ((c.toNat : ℤ) - 48) else none

/-- `int(data['cancerStage'][0])`: `IndexError` on an empty string,
`ValueError` when the first character is not a digit. -/
def stageDigitE (s : String) : Except PyErr ℤ :=
  match s.data with
  | [] => Except.error PyErr.indexError
  | c :: _ =>
    match charDigit c with
    | some d => Except.ok d
    | none => Except.error PyErr.valueError

/-- The leading digit of the cancer-stage string, when the first character
is a digit. -/
def stageDigit (s : String) : Option ℤ :=
  (stageDigitE s).toOption

/-- Contribution of the cancer-stage field to the priority:
`min(stage - 1, 3)` when the first character parses, `0` when the
`try/except` around it swallows the exception. -/
def stageAdj (s : String) : ℤ :=
  match stageDigit s with
  | some d => min (d - 1) 3
  | none => 0

/-- `a == b` on character lists restricted to a leading segment:
`beginsWith n h` is true iff `n` is an initial segment of `h`. -/
def beginsWith : List Char → List Char → Bool
  | [], _ => true
  | _ :: _, [] => false
  | a :: as, b :: bs => a == b && beginsWith as bs

/-- Substring containment of `n` in `h`, the semantics of Python's
`n in h` on strings. -/
def hasSub (n : List Char) : List Char → Bool
  | [] => beginsWith n []
  | c :: t => beginsWith n (c :: t) || hasSub n t

/-- `data['description'].lower()` as a character list (ASCII lowering). -/
def lowerStr (s : String) : List Char :=
  s.data.map Char.toLower

/-- The `emergency_keywords` list of `calculate_priority_fallback`. -/
def emergency_keywords : List String :=
  ["severe", "pain", "emergency", "urgent", "bleeding",
   "unconscious", "vomiting", "difficulty breathing"]

/-- `any(keyword in data['description'].lower() for keyword in
emergency_keywords)`. -/
def hasEmergencyKeyword (description : String) : Bool :=
  emergency_keywords.any (fun k => hasSub k.data (lowerStr description))

/-- `+1` if the temperature exceeds 38.5 °C. -/
def tempFlag (t : ℚ) : ℤ :=
  if (38.5 : ℚ) < t then 1 else 0

/-- `+1` if the heart rate is abnormal (`> 100 or < 60`). -/
def heartFlag (h : ℤ) : ℤ :=
  if 100 < h ∨ h < 60 then 1 else 0

/-- Net contribution of the vital-signs `try` block.  The block parses the
temperature first and mutates `priority` before parsing the heart rate, so
a heart-rate coercion failure keeps the temperature contribution, while a
temperature coercion failure aborts the whole block. -/
def vitalsAdj (temp : Option ℚ) (heart : Option ℤ) : ℤ :=
  match temp with
  | none => 0
  | some t =>
    tempFlag t +
      (match heart with
       | none => 0
       | some h => heartFlag h)

/-- `+1` for an emergency keyword in the description. -/
def kwAdj (description : String) : ℤ :=
  if hasEmergencyKeyword description then 1 else 0

/-- `calculate_priority_fallback(data)` from `src/views.py`: base priority
1, plus the cancer-stage, vital-signs and keyword adjustments, capped at 5.
The four arguments are the fields of `data` the function reads. -/
def calculate_priority_fallback (cancerStage : String) (temp : Option ℚ)
    (heart : Option ℤ) (description : String) : ℤ :=
  min (1 + stageAdj cancerStage + vitalsAdj temp heart + kwAdj description) 5

/-- `validate_priority(priority)` from `src/views.py`: `none` models a
value whose `int(...)` coercion raises, `some n` one that coerces to `n`. -/
def validate_priority (priority : Option ℤ) : ℤ :=
  match priority with
  | none => 1
  | some n => max 1 (min 5 n)

/-- `float(data['temp'])`: the coercion result or a `ValueError`. -/
def floatE (x : Option ℚ) : Except PyErr ℚ :=
  match x with
  | some q => Except.ok q
  | none => Except.error PyErr.valueError

/-- `int(data['heart'])`: the coercion result or a `ValueError`. -/
def intE (x : Option ℤ) : Except PyErr ℤ :=
  match x with
  | some n => Except.ok n
  | none => Except.error PyErr.valueError

/-- A Python `try/except` around a block that mutates `priority`: the body
either finishes with a new priority, or raises carrying the priority value
it had mutated so far; a handled exception keeps that partial value, an
unhandled one propagates. -/
def pyTry (body : Except (PyErr × ℤ) ℤ) (handles : PyErr → Bool) :
    Except PyErr ℤ :=
  match body with
  | Except.ok v => Except.ok v
  | Except.error (e, p) => if handles e then Except.ok p else Except.error e

/-- `except (ValueError, IndexError, TypeError)` of the stage block. -/
def stageHandles : PyErr → Bool
  | PyErr.valueError => true
  | PyErr.indexError => true
  | PyErr.typeError => true

/-- `except (ValueError, TypeError)` of the vitals block. -/
def vitalsHandles : PyErr → Bool
  | PyErr.valueError => true
  | PyErr.typeError => true
  | PyErr.indexError => false

/-- Body of the cancer-stage `try` block, with explicit exception flow. -/
def stageBlockE (cancerStage : String) (priority : ℤ) :
    Except (PyErr × ℤ) ℤ :=
  match stageDigitE cancerStage with
  | Except.ok d => Except.ok (priority + min (d - 1) 3)
  | Except.error e => Except.error (e, priority)

/-- Body of the vital-signs `try` block, with explicit exception flow:
the temperature increment happens before the heart-rate parse. -/
def vitalsBlockE (temp : Option ℚ) (heart : Option ℤ) (priority : ℤ) :
    Except (PyErr × ℤ) ℤ :=
  match floatE temp with
  | Except.error e => Except.error (e, priority)
  | Except.ok t =>
    let priority1 := priority + tempFlag t
    match intE heart with
    | Except.error e => Except.error (e, priority1)
    | Except.ok h => Except.ok (priority1 + heartFlag h)

/-- `calculate_priority_fallback` with explicit exception propagation. -/
def calculate_priority_fallbackE (cancerStage : String) (temp : Option ℚ)
    (heart : Option ℤ) (description : String) : Except PyErr ℤ :=
  match pyTry (stageBlockE cancerStage 1) stageHandles with
  | Except.error e => Except.error e
  | Except.ok p1 =>
    match pyTry (vitalsBlockE temp heart p1) vitalsHandles with
    | Except.error e => Except.error e
    | Except.ok p2 =>
      Except.ok (min (p2 + kwAdj description) 5)

/-- Split a character list on a separator, Python `str.split` style. -/
def splitOnChar (sep : Char) : List Char → List (List Char)
  | [] => [[]]
  | c :: t =>
    let r := splitOnChar sep t
    if c == sep then [] :: r
    else
      match r with
      | [] => [[c]]
      | h :: t2 => (c :: h) :: t2

/-- Numeric value of a digit string. -/
def digitsVal (l : List Char) : ℤ :=
  l.foldl (fun acc c => acc * 10 + ((c.toNat : ℤ) - 48)) 0

/-- All characters are decimal digits. -/
def allDigits (l : List Char) : Bool :=
  l.all Char.isDigit

/-- Gregorian leap-year test, as `datetime` implements it. -/
def isLeap (y : ℤ) : Bool :=
  (y % 4 == 0 && y % 100 != 0) || y % 400 == 0

/-- Number of days in month `m` of year `y`. -/
def daysInMonth (y m : ℤ) : ℤ :=
  if m = 2 then (if isLeap y then 29 else 28)
  else if m = 4 ∨ m = 6 ∨ m = 9 ∨ m = 11 then 30
  else 31

/-- Day index (days since 1970-01-01) of the civil date `y-m-d`; the
standard era/year-of-era computation used by calendar libraries. -/
def daysFromCivil (y m d : ℤ) : ℤ :=
  let y2 := y - (if m ≤ 2 then 1 else 0)
  let era := y2 / 400
  let yoe := y2 - era * 400
  let mp := (m + 9) % 12
  let doy := (153 * mp + 2) / 5 + d - 1
  let doe := yoe * 365 + yoe / 4 - yoe / 100 + doy
  era * 146097 + doe - 719468

/-- `datetime.strptime(s, "%Y-%m-%d")` on a character list: three
dash-separated digit groups (`%Y` 1-4 digits, `%m`/`%d` 1-2 digits), month
and day validated against the calendar; result is the day index of the
parsed date, `none` models the `ValueError` raise. -/
def parseDateList (l : List Char) : Option ℤ :=
  match splitOnChar '-' l with
  | [ys, ms, ds] =>
    if allDigits ys = true ∧ allDigits ms = true ∧ allDigits ds = true
        ∧ 1 ≤ ys.length ∧ ys.length ≤ 4
        ∧ 1 ≤ ms.length ∧ ms.length ≤ 2
        ∧ 1 ≤ ds.length ∧ ds.length ≤ 2 then
      let y := digitsVal ys
      let m := digitsVal ms
      let d := digitsVal ds
      if 1 ≤ m ∧ m ≤ 12 ∧ 1 ≤ d ∧ d ≤ daysInMonth y m then
        some (daysFromCivil y m d)
      else none
    else none
  | _ => none

/-- `datetime.strptime(ai_date, "%Y-%m-%d")` on a string. -/
def parseDate (s : String) : Option ℤ :=
  parseDateList s.data

/-- `dt.date()`: the calendar-day index of a minute timestamp. -/
def dateOf (t : ℤ) : ℤ :=
  t / 1440

/-- `dt.hour`: the hour-of-day of a minute timestamp. -/
def hourOf (t : ℤ) : ℤ :=
  (t % 1440) / 60

/-- `timedelta(days=k)` in minutes. -/
def timedelta_days (k : ℤ) : ℤ :=
  k * 1440

/-- The `if ai_date:` branch of `calculate_appointment`: `some t` when the
branch returns `t` from inside the `try`, `none` when control falls
through to the fallback computation (no AI date, empty string, parse
failure, or a date before today). -/
def ai_branch (priority : ℤ) (now : ℤ) (ai_date : Option String) :
    Option ℤ :=
  match ai_date with
  | none => none
  | some s =>
    match s.data with
    | [] => none
    | _ :: _ =>
      match parseDate s with
      | none => none
      | some aiDay =>
        if dateOf now ≤ aiDay then
          if 4 ≤ priority ∧ 2 < aiDay - dateOf now then
            some (now + timedelta_days 1)
          else if priority = 3 ∧ 7 < aiDay - dateOf now then
            some (now + timedelta_days 5)
          else
            some (aiDay * 1440)
        else none

/-- The fallback `days_offset` table of `calculate_appointment`, with the
`.get(priority, 14)` default. -/
def days_offset (priority : ℤ) : ℤ :=
  if priority = 1 then 14
  else if priority = 2 then 10
  else if priority = 3 then 5
  else if priority = 4 then 1
  else if priority = 5 then 0
  else 14

/-- `calculate_appointment(priority, ai_date)` from `src/views.py`.  Note
that the three `return`s inside the `if ai_date:` branch exit the function
before the after-hours check is reached; the after-hours override only
applies on the fallback path. -/
def calculate_appointment (priority : ℤ) (now : ℤ)
    (ai_date : Option String) : ℤ :=
  match ai_branch priority now ai_date with
  | some t => t
  | none =>
    let appointment := now + timedelta_days (days_offset priority)
    if 4 ≤ priority ∧ 17 ≤ hourOf now then
      (dateOf now + 1) * 1440 + 9 * 60
    else appointment

/-- `datetime.strptime` with its `ValueError` made explicit. -/
def parseDateE (s : String) : Except PyErr ℤ :=
  match parseDate s with
  | some d => Except.ok d
  | none => Except.error PyErr.valueError

/-- The `if ai_date:` branch with explicit exception flow: the
`except ValueError: pass` clause only absorbs a `ValueError`. -/
def ai_branchE (priority : ℤ) (now : ℤ) (ai_date : Option String) :
    Except PyErr (Option ℤ) :=
  match ai_date with
  | none => Except.ok none
  | some s =>
    match s.data with
    | [] => Except.ok none
    | _ :: _ =>
      match parseDateE s with
      | Except.ok aiDay =>
        if dateOf now ≤ aiDay then
          if 4 ≤ priority ∧ 2 < aiDay - dateOf now then
            Except.ok (some (now + timedelta_days 1))
          else if priority = 3 ∧ 7 < aiDay - dateOf now then
            Except.ok (some (now + timedelta_days 5))
          else
            Except.ok (some (aiDay * 1440))
        else Except.ok none
      | Except.error e =>
        if e = PyErr.valueError then Except.ok none else Except.error e

/-- `calculate_appointment` with explicit exception propagation. -/
def calculate_appointmentE (priority : ℤ) (now : ℤ)
    (ai_date : Option String) : Except PyErr ℤ :=
  match ai_branchE priority now ai_date with
  | Except.error e => Except.error e
  | Except.ok (some t) => Except.ok t
  | Except.ok none =>
    let appointment := now + timedelta_days (days_offset priority)
    if 4 ≤ priority ∧ 17 ≤ hourOf now then
      Except.ok ((dateOf now + 1) * 1440 + 9 * 60)
    else Except.ok appointment

example : parseDate "2024-01-10" = some 19732 := by decide

example : parseDate "2024-02-30" = none := by decide

example : parseDate "2024-13-01" = none := by decide

example : parseDate "not-a-date" = none := by decide

example : parseDate "2024-02-29" = some (19732 + 50) := by decide

example : hasEmergencyKeyword "Severe headache" = true := by decide

example : hasEmergencyKeyword "feeling fine" = false := by decide

example : stageAdj "Stage 4" = 0 := by decide

example : stageAdj "4" = 3 := by decide

example : stageAdj "0" = -1 := by decide

/-! ### Helper lemmas -/

lemma days_offset_nonneg (p : ℤ) : 0 ≤ days_offset p := by
  unfold days_offset
  split_ifs <;> norm_num

lemma appointment_of_branch_none {p now : ℤ} {ai : Option String}
    (hb : ai_branch p now ai = none) :
    calculate_appointment p now ai =
      if 4 ≤ p ∧ 17 ≤ hourOf now then (dateOf now + 1) * 1440 + 9 * 60
      else now + timedelta_days (days_offset p) := by
  unfold calculate_appointment
  rw [hb]

lemma appointment_of_branch_some {p now t : ℤ} {ai : Option String}
    (hb : ai_branch p now ai = some t) :
    calculate_appointment p now ai = t := by
  unfold calculate_appointment
  rw [hb]

lemma ai_branch_some_cases {p now t : ℤ} {ai : Option String}
    (hb : ai_branch p now ai = some t) :
    t = now + timedelta_days 1 ∨ t = now + timedelta_days 5 ∨
      ∃ d, dateOf now ≤ d ∧ t = d * 1440 := by
  unfold ai_branch at hb
  cases ai with
  | none => exact Option.noConfusion hb
  | some s =>
    rcases hds : s.data with _ | ⟨c, l⟩
    · simp only [hds] at hb
      exact Option.noConfusion hb
    · simp only [hds] at hb
      rcases hp : parseDate s with _ | d
      · simp only [hp] at hb
        exact Option.noConfusion hb
      · simp only [hp] at hb
        by_cases hge : dateOf now ≤ d
        · rw [if_pos hge] at hb
          by_cases h4 : 4 ≤ p ∧ 2 < d - dateOf now
          · rw [if_pos h4] at hb
            exact Or.inl (Option.some.inj hb).symm
          · rw [if_neg h4] at hb
            by_cases h3 : p = 3 ∧ 7 < d - dateOf now
            · rw [if_pos h3] at hb
              exact Or.inr (Or.inl (Option.some.inj hb).symm)
            · rw [if_neg h3] at hb
              exact Or.inr (Or.inr ⟨d, hge, (Option.some.inj hb).symm⟩)
        · rw [if_neg hge] at hb
          exact Option.noConfusion hb

lemma ai_branch_none_of (p now : ℤ) (ai : Option String)
    (H : ∀ s, ai = some s → ∀ d, parseDate s = some d → d < dateOf now) :
    ai_branch p now ai = none := by
  cases ai with
  | none => rfl
  | some s =>
    unfold ai_branch
    rcases hds : s.data with _ | ⟨c, l⟩
    · simp only [hds]
    · simp only [hds]
      rcases hp : parseDate s with _ | d
      · simp only [hp]
      · simp only [hp]
        have hlt := H s rfl d hp
        rw [if_neg (by omega : ¬ dateOf now ≤ d)]

lemma pyTry_stage (s : String) (p : ℤ) :
    pyTry (stageBlockE s p) stageHandles = Except.ok (p + stageAdj s) := by
  cases h : stageDigitE s with
  | ok d =>
    simp [pyTry, stageBlockE, stageAdj, stageDigit, h, Except.toOption]
  | error e =>
    cases e <;>
      simp [pyTry, stageBlockE, stageAdj, stageDigit, h, Except.toOption,
        stageHandles]

lemma pyTry_vitals (t : Option ℚ) (hr : Option ℤ) (p : ℤ) :
    pyTry (vitalsBlockE t hr p) vitalsHandles =
      Except.ok (p + vitalsAdj t hr) := by
  cases t with
  | none => simp [pyTry, vitalsBlockE, vitalsAdj, floatE, vitalsHandles]
  | some q =>
    cases hr with
    | none =>
      simp [pyTry, vitalsBlockE, vitalsAdj, floatE, intE, vitalsHandles]
    | some h =>
      simp [pyTry, vitalsBlockE, vitalsAdj, floatE, intE, add_assoc]

lemma tempFlag_bound (t : ℚ) : 0 ≤ tempFlag t ∧ tempFlag t ≤ 1 := by
  unfold tempFlag
  split_ifs <;> constructor <;> norm_num

lemma heartFlag_bound (h : ℤ) : 0 ≤ heartFlag h ∧ heartFlag h ≤ 1 := by
  unfold heartFlag
  split_ifs <;> constructor <;> norm_num

lemma kwAdj_bound (ds : String) : 0 ≤ kwAdj ds ∧ kwAdj ds ≤ 1 := by
  unfold kwAdj
  split_ifs <;> constructor <;> norm_num

lemma vitalsAdj_bound (t : Option ℚ) (h : Option ℤ) :
    0 ≤ vitalsAdj t h ∧ vitalsAdj t h ≤ 2 := by
  cases t with
  | none => exact ⟨le_refl 0, show (0 : ℤ) ≤ 2 by norm_num⟩
  | some q =>
    cases h with
    | none =>
      have h1 := tempFlag_bound q
      show 0 ≤ tempFlag q + 0 ∧ tempFlag q + 0 ≤ 2
      omega
    | some hr =>
      have h1 := tempFlag_bound q
      have h2 := heartFlag_bound hr
      show 0 ≤ tempFlag q + heartFlag hr ∧ tempFlag q + heartFlag hr ≤ 2
      omega

lemma stageAdj_le_three (s : String) : stageAdj s ≤ 3 := by
  cases hsd : stageDigit s <;> simp only [stageAdj, hsd] <;> omega

lemma tempFlag_mono {t1 t2 : ℚ} (ht : (38.5 : ℚ) < t1 → (38.5 : ℚ) < t2) :
    tempFlag t1 ≤ tempFlag t2 := by
  unfold tempFlag
  by_cases a : (38.5 : ℚ) < t1
  · rw [if_pos a, if_pos (ht a)]
  · rw [if_neg a]
    split_ifs <;> norm_num

lemma heartFlag_mono {h1 h2 : ℤ}
    (hh : (100 < h1 ∨ h1 < 60) → (100 < h2 ∨ h2 < 60)) :
    heartFlag h1 ≤ heartFlag h2 := by
  unfold heartFlag
  by_cases a : 100 < h1 ∨ h1 < 60
  · rw [if_pos a, if_pos (hh a)]
  · rw [if_neg a]
    split_ifs <;> norm_num

lemma kwAdj_mono {ds1 ds2 : String}
    (hk : hasEmergencyKeyword ds1 = true → hasEmergencyKeyword ds2 = true) :
    kwAdj ds1 ≤ kwAdj ds2 := by
  unfold kwAdj
  cases hb1 : hasEmergencyKeyword ds1 with
  | false =>
    rw [if_neg (show ¬ (false = true) by simp)]
    split_ifs <;> norm_num
  | true =>
    rw [if_pos rfl, if_pos (hk hb1)]

lemma beginsWith_self_append (n l : List Char) :
    beginsWith n (n ++ l) = true := by
  induction n with
  | nil => rfl
  | cons c t ih => simp [beginsWith, ih]

lemma hasSub_of_middle (l1 n l2 : List Char) :
    hasSub n (l1 ++ n ++ l2) = true := by
  induction l1 with
  | nil =>
    cases n with
    | nil => cases l2 <;> rfl
    | cons c t =>
      simp only [List.nil_append, List.cons_append, hasSub]
      have := beginsWith_self_append (c :: t) l2
      simp only [List.cons_append] at this
      simp [this]
  | cons x l1 ih =>
    simp only [List.cons_append, List.append_eq, hasSub, ih, Bool.or_true]

/-! ### Claim theorems -/

/-- C1: the claim expects `calculate_priority_fallback` on the intake
`{cancerStage: "Stage 4", temperature: 39.0, heartRate: 110, description:
"severe pain"}` to return 5 (base 1, stage +3, temperature +1, heart +1,
keyword +1, clamped).  The code actually returns 4: it parses
`data['cancerStage'][0]`, the first character `'S'`, so `int('S')` raises
`ValueError` and the stage contribution is silently skipped — contradicting
the code's own comment `# Extract number from "Stage X"`.  A stage string
that does begin with the digit (second conjunct) yields the claimed 5. -/
theorem C1_stage_string_bug :
    calculate_priority_fallback "Stage 4" (some 39) (some 110) "severe pain"
        = 4 ∧
    calculate_priority_fallback "4" (some 39) (some 110) "severe pain"
        = 5 := by
  have hv : vitalsAdj (some 39) (some 110) = 2 := by
    show tempFlag 39 + heartFlag 110 = 2
    unfold tempFlag heartFlag
    rw [if_pos (by norm_num : (38.5 : ℚ) < 39),
      if_pos (Or.inl (by norm_num : (100 : ℤ) < 110))]
    norm_num
  constructor
  · show min (1 + stageAdj "Stage 4" + vitalsAdj (some 39) (some 110)
        + kwAdj "severe pain") 5 = 4
    rw [hv, show stageAdj "Stage 4" = 0 from by decide,
      show kwAdj "severe pain" = 1 from by decide]
    decide
  · show min (1 + stageAdj "4" + vitalsAdj (some 39) (some 110)
        + kwAdj "severe pain") 5 = 5
    rw [hv, show stageAdj "4" = 3 from by decide,
      show kwAdj "severe pain" = 1 from by decide]
    decide

/-- C2 counterexample: the claim says that with priority ≥ 4 and the local
hour of `now` ≥ 17 the result is always tomorrow at 09:00, "even when a
valid, non-past AI date string was supplied and accepted by step 1", and in
particular at priority 4, now = 2024-01-10T18:00, aiDate "2024-01-11".  In
the code the `return ai_datetime` inside the `if ai_date:` branch exits
before the after-hours check, so that call returns 2024-01-11T00:00
(midnight, minute 19733*1440), not 09:00. -/
theorem C2_claim_false :
    17 ≤ hourOf (19732 * 1440 + 18 * 60) ∧
    calculate_appointment 4 (19732 * 1440 + 18 * 60) (some "2024-01-11")
        = 19733 * 1440 ∧
    (19733 * 1440 : ℤ) ≠
      (dateOf (19732 * 1440 + 18 * 60) + 1) * 1440 + 9 * 60 :=
  ⟨by decide, by decide, by decide⟩

/-- C2 amended: the after-hours override (priority ≥ 4 and hour ≥ 17 gives
tomorrow 09:00) applies only when the AI-date branch returned nothing
(date absent, empty, malformed, or in the past); when step 1 accepts the
AI date its result stands, and the claim's particular input returns
2024-01-11 at midnight instead of 09:00. -/
theorem C2_after_hours_only_on_fallback :
    (∀ (p now : ℤ) (ai : Option String),
        4 ≤ p → 17 ≤ hourOf now → ai_branch p now ai = none →
        calculate_appointment p now ai
          = (dateOf now + 1) * 1440 + 9 * 60) ∧
    calculate_appointment 4 (19732 * 1440 + 18 * 60) (some "2024-01-11")
        = 19733 * 1440 := by
  constructor
  · intro p now ai h4 h17 hb
    rw [appointment_of_branch_none hb, if_pos ⟨h4, h17⟩]
  · decide

/-- C2 witness: the amended after-hours rule fires on a fallback-path call
(no AI date) at 18:00 with priority 4. -/
theorem C2_after_hours_witness :
    calculate_appointment 4 (19732 * 1440 + 18 * 60) none
      = (dateOf (19732 * 1440 + 18 * 60) + 1) * 1440 + 9 * 60 :=
  C2_after_hours_only_on_fallback.1 4 (19732 * 1440 + 18 * 60) none
    (by norm_num) (by decide) rfl

/-- C3 counterexample: the claim says the appointment is ≥ `now` except
for the high-priority after-hours override.  But an accepted AI date equal
to today's calendar date is returned as midnight of today, which precedes
a mid-day `now`: at priority 1, now = 2024-01-10T10:00, aiDate
"2024-01-10", the result is 2024-01-10T00:00 < now, and the after-hours
exception does not apply (priority 1 < 4 and hour 10 < 17). -/
theorem C3_claim_false :
    calculate_appointment 1 (19732 * 1440 + 600) (some "2024-01-10")
        < 19732 * 1440 + 600 ∧
    ¬ (4 ≤ (1 : ℤ)) ∧
    hourOf (19732 * 1440 + 600) < 17 :=
  ⟨by decide, by decide, by decide⟩

/-- C3 amended: for every priority and AI date input the appointment is
≥ `now`, except that an accepted AI date may be returned as a midnight
timestamp of `now`'s own calendar day (which precedes `now` whenever `now`
is past midnight).  In particular the after-hours override itself always
yields a time ≥ `now`. -/
theorem C3_appointment_lower_bound :
    ∀ (p now : ℤ) (ai : Option String),
      now ≤ calculate_appointment p now ai ∨
        calculate_appointment p now ai = dateOf now * 1440 := by
  intro p now ai
  have h0 : 0 ≤ now % 1440 := Int.emod_nonneg now (by norm_num)
  have h1 : now % 1440 < 1440 := Int.emod_lt_of_pos now (by norm_num)
  have hdm : 1440 * (now / 1440) + now % 1440 = now :=
    Int.ediv_add_emod now 1440
  cases hb : ai_branch p now ai with
  | none =>
    rw [appointment_of_branch_none hb]
    by_cases hc : 4 ≤ p ∧ 17 ≤ hourOf now
    · rw [if_pos hc]
      left
      unfold dateOf
      omega
    · rw [if_neg hc]
      have hoff : 0 ≤ days_offset p := days_offset_nonneg p
      left
      unfold timedelta_days
      omega
  | some t =>
    rw [appointment_of_branch_some hb]
    rcases ai_branch_some_cases hb with h | h | ⟨d, hd, h⟩
    · subst h
      left
      unfold timedelta_days
      omega
    · subst h
      left
      unfold timedelta_days
      omega
    · subst h
      unfold dateOf at hd ⊢
      omega

/-- C4: `validate_priority` always lands in [1,5]; a failed coercion
(`none`) yields 1, and a successful coercion to `n` yields `n` clamped to
[1,5]. -/
theorem C4_validate_priority_range :
    (∀ x : Option ℤ, 1 ≤ validate_priority x ∧ validate_priority x ≤ 5) ∧
    validate_priority none = 1 ∧
    (∀ n : ℤ, validate_priority (some n) = max 1 (min 5 n)) := by
  refine ⟨?_, rfl, fun n => rfl⟩
  intro x
  cases x with
  | none => exact ⟨le_refl 1, show (1 : ℤ) ≤ 5 by norm_num⟩
  | some n =>
    show 1 ≤ max 1 (min 5 n) ∧ max 1 (min 5 n) ≤ 5
    omega

/-- C5: with no usable AI date (absent, malformed, or before today) and
the after-hours override not firing, the appointment is `now` plus the
offset-table days for the priority; the table is `{1:14, 2:10, 3:5, 4:1,
5:0}` with 14 days for any other priority; in particular priority 5 at
2024-01-10T10:00 stays on 2024-01-10 and priority 1 lands on
2024-01-24. -/
theorem C5_offset_table :
    (∀ (p now : ℤ) (ai : Option String),
        (∀ s, ai = some s → ∀ d, parseDate s = some d → d < dateOf now) →
        ¬ (4 ≤ p ∧ 17 ≤ hourOf now) →
        calculate_appointment p now ai = now + days_offset p * 1440) ∧
    days_offset 1 = 14 ∧ days_offset 2 = 10 ∧ days_offset 3 = 5 ∧
    days_offset 4 = 1 ∧ days_offset 5 = 0 ∧
    (∀ p : ℤ, p < 1 ∨ 5 < p → days_offset p = 14) ∧
    dateOf (calculate_appointment 5 (19732 * 1440 + 600) none) = 19732 ∧
    calculate_appointment 1 (19732 * 1440 + 600) none
      = 19746 * 1440 + 600 := by
  refine ⟨?_, by decide, by decide, by decide, by decide, by decide, ?_,
    by decide, by decide⟩
  · intro p now ai H hno
    rw [appointment_of_branch_none (ai_branch_none_of p now ai H),
      if_neg hno]
    rfl
  · intro p hp
    unfold days_offset
    split_ifs <;> omega

/-- C5 witness: priority 2 at 2024-01-10T10:00 with no AI date gets the
10-day offset. -/
theorem C5_offset_table_witness :
    calculate_appointment 2 (19732 * 1440 + 600) none
      = (19732 * 1440 + 600) + days_offset 2 * 1440 :=
  C5_offset_table.1 2 (19732 * 1440 + 600) none
    (fun s hs => Option.noConfusion hs) (by decide)

/-- C6: a malformed AI date string, or one denoting a calendar date before
today, is silently discarded: the result is the same as with no AI date at
all (the offset-table path; no exception escapes, see C9).  In particular
priority 2 at 2024-01-10T10:00 with the past date "2024-01-09" lands on
2024-01-20 (minute 19742*1440+600). -/
theorem C6_bad_ai_date_discarded :
    (∀ (p now : ℤ) (s : String),
        (parseDate s = none ∨ ∀ d, parseDate s = some d → d < dateOf now) →
        calculate_appointment p now (some s)
          = calculate_appointment p now none) ∧
    calculate_appointment 2 (19732 * 1440 + 600) (some "2024-01-09")
      = 19742 * 1440 + 600 := by
  constructor
  · intro p now s H
    have hb : ai_branch p now (some s) = none := by
      apply ai_branch_none_of
      intro s2 hs2 d hd
      cases hs2
      rcases H with H | H
      · rw [H] at hd
        exact Option.noConfusion hd
      · exact H d hd
    have hb2 : ai_branch p now none = none := rfl
    rw [appointment_of_branch_none hb, appointment_of_branch_none hb2]
  · decide

/-- C6 witness: a string that is not a date at all falls back to the
offset path. -/
theorem C6_bad_ai_date_witness :
    calculate_appointment 1 0 (some "nonsense")
      = calculate_appointment 1 0 none :=
  C6_bad_ai_date_discarded.1 1 0 "nonsense" (Or.inl (by decide))

/-- C7: a valid AI date not before today, priority 3, and a gap of more
than 7 days from today gives `now + 5 days`; in particular priority 3 at
2024-01-10T10:00 with AI date "2024-02-01" lands on 2024-01-15 (minute
19737*1440+600). -/
theorem C7_medium_priority_cap :
    (∀ (now : ℤ) (s : String) (d : ℤ),
        parseDate s = some d → dateOf now ≤ d → 7 < d - dateOf now →
        calculate_appointment 3 now (some s) = now + 5 * 1440) ∧
    calculate_appointment 3 (19732 * 1440 + 600) (some "2024-02-01")
      = 19737 * 1440 + 600 := by
  constructor
  · intro now s d hp hge hgap
    have hb : ai_branch 3 now (some s) = some (now + timedelta_days 5) := by
      unfold ai_branch
      rcases hds : s.data with _ | ⟨c, l⟩
      · have hnone : parseDate s = none := by
          unfold parseDate parseDateList
          rw [hds]
          decide
        rw [hnone] at hp
        exact Option.noConfusion hp
      · simp only [hds, hp]
        rw [if_pos hge,
          if_neg (by omega : ¬ (4 ≤ (3 : ℤ) ∧ 2 < d - dateOf now)),
          if_pos ⟨trivial, hgap⟩]
    rw [appointment_of_branch_some hb]
    rfl
  · decide

/-- C7 witness: the concrete medium-priority override instance. -/
theorem C7_medium_priority_witness :
    calculate_appointment 3 (19732 * 1440 + 600) (some "2024-02-01")
      = (19732 * 1440 + 600) + 5 * 1440 :=
  C7_medium_priority_cap.1 (19732 * 1440 + 600) "2024-02-01" 19754
    (by decide) (by decide) (by decide)

lemma stageAdj_of_digit {s : String} {d : ℤ} (h : stageDigit s = some d) :
    stageAdj s = min (d - 1) 3 := by
  unfold stageAdj
  rw [h]

lemma vitalsAdj_mono_temp (h : Option ℤ) {t1 t2 : ℚ}
    (ht : (38.5 : ℚ) < t1 → (38.5 : ℚ) < t2) :
    vitalsAdj (some t1) h ≤ vitalsAdj (some t2) h := by
  have hm := tempFlag_mono ht
  cases h with
  | none =>
    show tempFlag t1 + 0 ≤ tempFlag t2 + 0
    omega
  | some hr =>
    show tempFlag t1 + heartFlag hr ≤ tempFlag t2 + heartFlag hr
    omega

lemma vitalsAdj_mono_heart (t : Option ℚ) {h1 h2 : ℤ}
    (hh : (100 < h1 ∨ h1 < 60) → (100 < h2 ∨ h2 < 60)) :
    vitalsAdj t (some h1) ≤ vitalsAdj t (some h2) := by
  have hm := heartFlag_mono hh
  cases t with
  | none => exact le_refl 0
  | some q =>
    show tempFlag q + heartFlag h1 ≤ tempFlag q + heartFlag h2
    omega

lemma vitalsAdj_temp_delta (h : Option ℤ) (t1 t2 : ℚ) :
    vitalsAdj (some t2) h ≤ vitalsAdj (some t1) h + 1 := by
  have b1 := tempFlag_bound t1
  have b2 := tempFlag_bound t2
  cases h with
  | none =>
    show tempFlag t2 + 0 ≤ tempFlag t1 + 0 + 1
    omega
  | some hr =>
    show tempFlag t2 + heartFlag hr ≤ tempFlag t1 + heartFlag hr + 1
    omega

lemma vitalsAdj_heart_delta (t : Option ℚ) (h1 h2 : ℤ) :
    vitalsAdj t (some h2) ≤ vitalsAdj t (some h1) + 1 := by
  have b1 := heartFlag_bound h1
  have b2 := heartFlag_bound h2
  cases t with
  | none =>
    show (0 : ℤ) ≤ 0 + 1
    omega
  | some q =>
    show tempFlag q + heartFlag h2 ≤ tempFlag q + heartFlag h1 + 1
    omega

/-- C8: on well-typed intakes — per the spec's data model the cancer-stage
string's leading digit, when it is a digit, is 1-4 — the fallback priority
is in [1,5], it is monotone non-decreasing independently in the stage
digit, the over-threshold temperature flag, the heart-rate-abnormality
flag and keyword presence, and flipping a vital/keyword factor moves the
result by at most 1 while the stage moves it by at most 3. -/
theorem C8_priority_range_monotone :
    (∀ (cs : String) (t : Option ℚ) (h : Option ℤ) (ds : String),
        (∀ d, stageDigit cs = some d → 1 ≤ d ∧ d ≤ 4) →
        1 ≤ calculate_priority_fallback cs t h ds ∧
          calculate_priority_fallback cs t h ds ≤ 5) ∧
    (∀ (cs1 cs2 : String) (t : Option ℚ) (h : Option ℤ) (ds : String)
        (d1 d2 : ℤ),
        stageDigit cs1 = some d1 → stageDigit cs2 = some d2 → d1 ≤ d2 →
        calculate_priority_fallback cs1 t h ds ≤
          calculate_priority_fallback cs2 t h ds) ∧
    (∀ (cs : String) (h : Option ℤ) (ds : String) (t1 t2 : ℚ),
        ((38.5 : ℚ) < t1 → (38.5 : ℚ) < t2) →
        calculate_priority_fallback cs (some t1) h ds ≤
          calculate_priority_fallback cs (some t2) h ds) ∧
    (∀ (cs : String) (t : Option ℚ) (ds : String) (h1 h2 : ℤ),
        ((100 < h1 ∨ h1 < 60) → (100 < h2 ∨ h2 < 60)) →
        calculate_priority_fallback cs t (some h1) ds ≤
          calculate_priority_fallback cs t (some h2) ds) ∧
    (∀ (cs : String) (t : Option ℚ) (h : Option ℤ) (ds1 ds2 : String),
        (hasEmergencyKeyword ds1 = true → hasEmergencyKeyword ds2 = true) →
        calculate_priority_fallback cs t h ds1 ≤
          calculate_priority_fallback cs t h ds2) ∧
    (∀ (cs : String) (h : Option ℤ) (ds : String) (t1 t2 : ℚ),
        calculate_priority_fallback cs (some t2) h ds ≤
          calculate_priority_fallback cs (some t1) h ds + 1) ∧
    (∀ (cs : String) (t : Option ℚ) (ds : String) (h1 h2 : ℤ),
        calculate_priority_fallback cs t (some h2) ds ≤
          calculate_priority_fallback cs t (some h1) ds + 1) ∧
    (∀ (cs : String) (t : Option ℚ) (h : Option ℤ) (ds1 ds2 : String),
        calculate_priority_fallback cs t h ds2 ≤
          calculate_priority_fallback cs t h ds1 + 1) ∧
    (∀ (cs1 cs2 : String) (t : Option ℚ) (h : Option ℤ) (ds : String)
        (d1 d2 : ℤ),
        stageDigit cs1 = some d1 → 1 ≤ d1 → stageDigit cs2 = some d2 →
        calculate_priority_fallback cs2 t h ds ≤
          calculate_priority_fallback cs1 t h ds + 3) := by
  refine ⟨?_, ?_, ?_, ?_, ?_, ?_, ?_, ?_, ?_⟩
  · intro cs t h ds hWT
    have hsa : 0 ≤ stageAdj cs ∧ stageAdj cs ≤ 3 := by
      cases hsd : stageDigit cs with
      | none =>
        have h0 : stageAdj cs = 0 := by
          unfold stageAdj
          rw [hsd]
        omega
      | some d =>
        have hd := hWT d hsd
        have h0 := stageAdj_of_digit hsd
        omega
    have hva := vitalsAdj_bound t h
    have hkw := kwAdj_bound ds
    unfold calculate_priority_fallback
    omega
  · intro cs1 cs2 t h ds d1 d2 e1 e2 hle
    have q1 := stageAdj_of_digit e1
    have q2 := stageAdj_of_digit e2
    unfold calculate_priority_fallback
    omega
  · intro cs h ds t1 t2 ht
    have hm := vitalsAdj_mono_temp h ht
    unfold calculate_priority_fallback
    omega
  · intro cs t ds h1 h2 hh
    have hm := vitalsAdj_mono_heart t hh
    unfold calculate_priority_fallback
    omega
  · intro cs t h ds1 ds2 hk
    have hm := kwAdj_mono hk
    unfold calculate_priority_fallback
    omega
  · intro cs h ds t1 t2
    have hd := vitalsAdj_temp_delta h t1 t2
    unfold calculate_priority_fallback
    omega
  · intro cs t ds h1 h2
    have hd := vitalsAdj_heart_delta t h1 h2
    unfold calculate_priority_fallback
    omega
  · intro cs t h ds1 ds2
    have k1 := kwAdj_bound ds1
    have k2 := kwAdj_bound ds2
    unfold calculate_priority_fallback
    omega
  · intro cs1 cs2 t h ds d1 d2 e1 hd1 e2
    have q1 := stageAdj_of_digit e1
    have q2 := stageAdj_of_digit e2
    unfold calculate_priority_fallback
    omega

/-- C8 witness: a "Stage 3"-style string has no leading digit, so the
well-typedness hypothesis holds vacuously and the range bound applies. -/
theorem C8_priority_range_witness :
    1 ≤ calculate_priority_fallback "Stage 3" (some 37) (some 80) "" ∧
    calculate_priority_fallback "Stage 3" (some 37) (some 80) "" ≤ 5 :=
  C8_priority_range_monotone.1 "Stage 3" (some 37) (some 80) ""
    (fun d hd => by
      rw [show stageDigit "Stage 3" = none from by decide] at hd
      exact Option.noConfusion hd)

lemma ai_branchE_eq (p now : ℤ) (ai : Option String) :
    ai_branchE p now ai = Except.ok (ai_branch p now ai) := by
  cases ai with
  | none => rfl
  | some s =>
    unfold ai_branchE ai_branch
    rcases hds : s.data with _ | ⟨c, l⟩
    · simp only [hds]
    · simp only [hds]
      rcases hp : parseDate s with _ | d
      · simp only [parseDateE, hp]
        rw [if_pos trivial]
      · simp only [parseDateE, hp]
        by_cases hge : dateOf now ≤ d
        · rw [if_pos hge, if_pos hge]
          by_cases h4 : 4 ≤ p ∧ 2 < d - dateOf now
          · rw [if_pos h4, if_pos h4]
          · rw [if_neg h4, if_neg h4]
            by_cases h3 : p = 3 ∧ 7 < d - dateOf now
            · rw [if_pos h3, if_pos h3]
            · rw [if_neg h3, if_neg h3]
        · rw [if_neg hge, if_neg hge]

lemma appointmentE_of_branch_some {p now t : ℤ} {ai : Option String}
    (hb : ai_branch p now ai = some t) :
    calculate_appointmentE p now ai = Except.ok t := by
  unfold calculate_appointmentE
  rw [ai_branchE_eq, hb]

lemma appointmentE_of_branch_none {p now : ℤ} {ai : Option String}
    (hb : ai_branch p now ai = none) :
    calculate_appointmentE p now ai =
      if 4 ≤ p ∧ 17 ≤ hourOf now then
        Except.ok ((dateOf now + 1) * 1440 + 9 * 60)
      else Except.ok (now + timedelta_days (days_offset p)) := by
  unfold calculate_appointmentE
  rw [ai_branchE_eq, hb]

/-- C9: the resolver is total.  With the exception flow made explicit,
`calculate_priority_fallbackE` and `calculate_appointmentE` return
`Except.ok` — never an escaping error — for every input shape (any stage
string, any coercible-or-not temperature and heart rate, any description,
any priority, any AI date string or its absence), and the value is the one
the total functions compute: every coercion, parse and malformed-stage
failure is absorbed by the `except` clause around it. -/
theorem C9_resolver_total :
    ∀ (cs : String) (temp : Option ℚ) (heart : Option ℤ) (ds : String)
      (p now : ℤ) (ai : Option String),
      calculate_priority_fallbackE cs temp heart ds
          = Except.ok (calculate_priority_fallback cs temp heart ds) ∧
      calculate_appointmentE p now ai
          = Except.ok (calculate_appointment p now ai) := by
  intro cs temp heart ds p now ai
  constructor
  · simp only [calculate_priority_fallbackE, pyTry_stage, pyTry_vitals]
    unfold calculate_priority_fallback kwAdj
    rfl
  · cases hb : ai_branch p now ai with
    | some t =>
      rw [appointmentE_of_branch_some hb, appointment_of_branch_some hb]
    | none =>
      rw [appointmentE_of_branch_none hb, appointment_of_branch_none hb]
      split_ifs <;> rfl

lemma map_toLower_pain :
    ("pain".data.map Char.toLower) = "pain".data := by decide

/-- C10: the emergency-keyword check is plain substring containment on the
lowercased description: any description with "pain" embedded anywhere —
also inside another word, as in "painless" or "painting" — gets the +1
keyword adjustment, exactly as a description consisting of a keyword
alone does. -/
theorem C10_keyword_substring :
    (∀ pre post : List Char,
        hasEmergencyKeyword (String.mk (pre ++ "pain".data ++ post))
          = true) ∧
    hasEmergencyKeyword "painless" = true ∧
    hasEmergencyKeyword "painting" = true ∧
    calculate_priority_fallback "" none none "painless" = 2 ∧
    calculate_priority_fallback "" none none "no keyword here" = 1 := by
  refine ⟨?_, by decide, by decide, by decide, by decide⟩
  intro pre post
  unfold hasEmergencyKeyword
  apply List.any_eq_true.mpr
  refine ⟨"pain", by decide, ?_⟩
  show hasSub "pain".data
      (lowerStr (String.mk (pre ++ "pain".data ++ post))) = true
  have hL : lowerStr (String.mk (pre ++ "pain".data ++ post))
      = (pre.map Char.toLower) ++ "pain".data ++ (post.map Char.toLower) := by
    show (pre ++ "pain".data ++ post).map Char.toLower = _
    rw [List.map_append, List.map_append, map_toLower_pain]
  rw [hL]
  exact hasSub_of_middle (pre.map Char.toLower) "pain".data
    (post.map Char.toLower)

end MediFriend
